import Mathlib

/-!
Verification of the compilation-and-disassembly pipeline of `src/explorer.py`
(the `/compile` route, function `compile_code`), as a shallow embedding.

Modelling conventions:
* A completed child process is a `ProcResult` (returncode, stdout, stderr).
* Each `subprocess.run` call site is given its outcome as an oracle of type
  `Except String ProcResult`: `.error msg` embeds the Python call raising an
  exception whose `str` is `msg` (launch failure, `TimeoutExpired`, ...),
  `.ok p` embeds a completed process.  The pipeline also records a trace of
  every attempted invocation (`Invocation`: argument vector and the `timeout=`
  keyword passed, `none` when the call site passes no timeout).
* The `results` dict that the route fills in is embedded as a pair of
  `Option BackendResult` fields, `none` standing for an absent key.
* `tempfile.TemporaryDirectory` management is modelled from the spec (its code
  is the Python standard library, not in this repository): the filesystem is a
  list of live directory ids plus a fresh-name counter; see `FS` below.
* `BASE_DIR` (the directory of the script) is modelled as the empty string;
  only its role as a path prefix of the CCC binary matters.
-/

/-- Result of a completed subprocess (`subprocess.CompletedProcess`). -/
structure ProcResult where
  returncode : Int
  stdout : String
  stderr : String
deriving Repr, DecidableEq

/-- One attempted external process invocation: the argument vector passed to
`subprocess.run` and the `timeout=` keyword given at that call site
(`none` when the call site passes no timeout). -/
structure Invocation where
  argv : List String
  timeoutSec : Option Nat
deriving Repr, DecidableEq

/-- One backend's entry in the `results` dict: either
`{"success": True, "asm": ...}` or `{"success": False, "error": ...}`. -/
inductive BackendResult where
  | ok (asm : String)
  | fail (error : String)
deriving Repr, DecidableEq

/-- The JSON object returned by the route: the `results` dict.  An entry is
`none` when the corresponding key was never assigned. -/
structure ComparisonResult where
  gcc : Option BackendResult
  ccc : Option BackendResult
deriving Repr, DecidableEq

/-- Outcomes of the (up to four) subprocess call sites of one request. -/
structure Env where
  gccRun : Except String ProcResult
  cccRun : Except String ProcResult
  binExists : Bool
  probeRun : Except String ProcResult
  disRun : Except String ProcResult

/-- The incoming JSON body: `data.get('code', '')` and `data.get('opt', '-O0')`;
`none` embeds an absent key. -/
structure RequestData where
  code : Option String
  opt : Option String

/-- `GCC_BINARY = "/usr/bin/gcc"`. -/
def GCC_BINARY : String := "/usr/bin/gcc"

/-- `BASE_DIR`, the directory of the script; modelled as `""`. -/
def BASE_DIR : String := ""

/-- `CCC_BINARY = os.path.join(BASE_DIR, "claudes-c-compiler/target/release/ccc")`. -/
def CCC_BINARY : String := BASE_DIR ++ "/claudes-c-compiler/target/release/ccc"

/-- `TEMP_DIR = "/dev/shm"`. -/
def TEMP_DIR : String := "/dev/shm"

/-- Python truthiness of `s.strip()`, negated: `not s.strip()` holds iff every
character of `s` is whitespace. -/
def isBlankLine (s : String) : Bool :=
  s.data.all Char.isWhitespace

/-- Whether the character list `pat` starts the character list given second. -/
def startsList : List Char → List Char → Bool
  | [], _ => true
  | _ :: _, [] => false
  | x :: xs, y :: ys => x = y && startsList xs ys

/-- Whether the character list `pat` occurs inside the second list. -/
def containsSub (pat : List Char) : List Char → Bool
  | [] => pat.isEmpty
  | x :: xs => startsList pat (x :: xs) || containsSub pat xs

/-- Whether the character `c` occurs in the list. -/
def hasChar (c : Char) : List Char → Bool
  | [] => false
  | x :: xs => x = c || hasChar c xs

/-- The characters after the first occurrence of `c` (all of them when `c`
does not occur). -/
def afterChar (c : Char) : List Char → List Char
  | [] => []
  | x :: xs => if x = c then xs else afterChar c xs

/-- Whether `"Disassembly of section" in line` holds (substring test). -/
def markerIn (line : String) : Bool :=
  containsSub "Disassembly of section".data line.data

/-- The text after the first tab of `line` (`line.split('\t', 1)[1]`),
meaningful when `line` contains a tab. -/
def afterFirstTab (line : String) : String :=
  ⟨afterChar '\t' line.data⟩

/-- The per-line cleaning of the disassembly loop body: a line containing a tab
becomes a single tab followed by the text after its first tab; a line without
a tab is kept unchanged. -/
def tabClean (line : String) : String :=
  if hasChar '\t' line.data then "\t" ++ afterFirstTab line else line

/-- The normalization loop of `compile_code` (lines 257-268): the `Bool` is the
`start_printing` flag.  A line containing the section marker sets the flag and
is skipped; afterwards non-blank lines are kept (tab-cleaned), blank lines and
pre-marker lines are dropped. -/
def cleanLines : Bool → List String → List String
  | _, [] => []
  | startPrinting, line :: rest =>
    if markerIn line then cleanLines true rest
    else if startPrinting && !(isBlankLine line) then
      tabClean line :: cleanLines startPrinting rest
    else cleanLines startPrinting rest

/-- Split a character list at every occurrence of `c` (always non-empty,
like `String.splitOn` with a single-character separator). -/
def splitChar (c : Char) : List Char → List (List Char)
  | [] => [[]]
  | x :: xs =>
    if x = c then [] :: splitChar c xs
    else
      match splitChar c xs with
      | [] => [[x]]
      | y :: ys => (x :: y) :: ys

/-- Python `str.splitlines` restricted to `"\n"` separators (the only
separator occurring in the texts at issue): split at newlines, with no entry
for a trailing newline and no entry at all for the empty string. -/
def splitlines (s : String) : List String :=
  let parts := splitChar '\n' s.data
  let parts :=
    if parts.getLast? = some ([] : List Char) then parts.dropLast else parts
  parts.map fun l => ⟨l⟩

/-- The full disassembly normalization: split the disassembler's stdout into
lines, run the cleaning loop with `start_printing = False`, and join the kept
lines with newlines. -/
def normalizeDisassembly (out : String) : String :=
  String.intercalate "\n" (cleanLines false (splitlines out))

/-- `cmd = [GCC_BINARY, opt_level, "-S", "-fverbose-asm", "-o", "-", src]`. -/
def gccCmd (optLevel src : String) : List String :=
  [GCC_BINARY, optLevel, "-S", "-fverbose-asm", "-o", "-", src]

/-- `cmd = [CCC_BINARY, "-c", src, "-o", out_bin]`. -/
def cccCmd (src outBin : String) : List String :=
  [CCC_BINARY, "-c", src, "-o", outBin]

/-- The availability probe `["x86_64-linux-gnu-objdump", "--version"]`. -/
def probeCmd : List String := ["x86_64-linux-gnu-objdump", "--version"]

/-- The disassembler invocation
`[objdump_cmd, "-d", "-M", "intel", "--no-show-raw-insn", out_bin]`. -/
def disCmd (objdumpCmd outBin : String) : List String :=
  [objdumpCmd, "-d", "-M", "intel", "--no-show-raw-insn", outBin]

/-- The tool chosen by the probe: `objdump_cmd` stays `"objdump"` when the
probe raises (bare `except: pass`), and becomes the cross tool whenever the
probe call returns, whatever its exit status. -/
def chosenObjdump : Except String ProcResult → String
  | .error _ => "objdump"
  | .ok _ => "x86_64-linux-gnu-objdump"

/-- The GCC block (lines 199-210): one invocation with `timeout=5`; exit 0
gives success with stdout, non-zero exit gives failure with stderr verbatim,
an exception gives failure with its message. -/
def gccStep (optLevel src : String) (run : Except String ProcResult) :
    Option BackendResult × List Invocation :=
  (match run with
    | .error e => some (.fail e)
    | .ok p =>
      if p.returncode = 0 then some (.ok p.stdout) else some (.fail p.stderr),
   [⟨gccCmd optLevel src, some 5⟩])

/-- The CCC failure message on non-zero exit:
`err = stderr if stderr else stdout`, then `err or "Unknown CCC Error"`. -/
def cccFailMsg (p : ProcResult) : String :=
  let err := if p.stderr ≠ "" then p.stderr else p.stdout
  if err ≠ "" then err else "Unknown CCC Error"

/-- The CCC block (lines 215-277): compile with `timeout=5`; on non-zero exit
report `cccFailMsg`; on exit 0, if the binary is missing report
`"Binary missing"`, otherwise probe for the cross objdump (no timeout), run the
chosen disassembler (`timeout=5`), and normalize its stdout on exit 0 or report
`"Objdump failed: " ++ stderr` on non-zero exit.  Any exception of the compile
or disassembler call becomes a failure with the exception's message. -/
def cccStep (src outBin : String) (cccRun : Except String ProcResult)
    (binEx : Bool) (probe dis : Except String ProcResult) :
    Option BackendResult × List Invocation :=
  match cccRun with
  | .error e => (some (.fail e), [⟨cccCmd src outBin, some 5⟩])
  | .ok p =>
    if p.returncode ≠ 0 then
      (some (.fail (cccFailMsg p)), [⟨cccCmd src outBin, some 5⟩])
    else if binEx then
      let tool := chosenObjdump probe
      match dis with
      | .error e =>
        (some (.fail e),
         [⟨cccCmd src outBin, some 5⟩, ⟨probeCmd, none⟩,
          ⟨disCmd tool outBin, some 5⟩])
      | .ok d =>
        ((if d.returncode = 0 then
            some (.ok (normalizeDisassembly d.stdout))
          else
            some (.fail ("Objdump failed: " ++ d.stderr))),
         [⟨cccCmd src outBin, some 5⟩, ⟨probeCmd, none⟩,
          ⟨disCmd tool outBin, some 5⟩])
    else
      (some (.fail "Binary missing"), [⟨cccCmd src outBin, some 5⟩])

/-- The body of the `with tempfile.TemporaryDirectory(...)` block, given the
workspace directory path: writes the source to `<tmpDir>/test.c` and runs the
two backend blocks in order, collecting results and the invocation trace. -/
def compile_body (optLevel tmpDir : String) (env : Env) :
    ComparisonResult × List Invocation :=
  let src := tmpDir ++ "/test.c"
  let outBin := tmpDir ++ "/ccc_out"
  let g := gccStep optLevel src env.gccRun
  let c := cccStep src outBin env.cccRun env.binExists env.probeRun env.disRun
  (⟨g.1, c.1⟩, g.2 ++ c.2)

/-- The early-return payload for blank source:
`{"gcc": {"success": False, "error": "No code"}, "ccc": ...}`. -/
def noCodeResult : ComparisonResult :=
  ⟨some (.fail "No code"), some (.fail "No code")⟩

/-- Modelled from the spec: the filesystem state seen by the Workspace Manager
(`tempfile.TemporaryDirectory`, standard-library code not in this repository).
`dirs` are the ids of the workspace directories currently on disk; `counter`
is the fresh-name source (the library draws names never colliding with an
existing directory; freshness is expressed by `FS.wf`). -/
structure FS where
  dirs : List Nat
  counter : Nat
deriving Repr, DecidableEq

/-- The on-disk path of workspace id `d`, under `TEMP_DIR`. -/
def dirName (d : Nat) : String := TEMP_DIR ++ "/tmp" ++ toString d

/-- Modelled from the spec: every live directory was drawn earlier than the
next fresh name, so the next name collides with no live directory. -/
def FS.wf (fs : FS) : Prop := ∀ d ∈ fs.dirs, d < fs.counter

/-- The `/compile` route handler `compile_code` (lines 178-279): read `code`
(default `''`) and `opt` (default `'-O0'`); on blank code return the
`"No code"` payload at once (no workspace, no invocation); otherwise acquire a
fresh workspace directory, run `compile_body` in it, and release the directory
on the way out (the `with` block deletes it on every exit path).  Returns the
response, the invocation trace, and the filesystem after release. -/
def compile_code (data : RequestData) (env : Env) (fs : FS) :
    ComparisonResult × List Invocation × FS :=
  let code := data.code.getD ""
  let optLevel := data.opt.getD "-O0"
  if isBlankLine code then
    (noCodeResult, [], fs)
  else
    let d := fs.counter
    let body := compile_body optLevel (dirName d) env
    (body.1, body.2, ⟨(d :: fs.dirs).erase d, fs.counter + 1⟩)

/-- The workspace directory id a non-blank call to `compile_code` acquires
(the `d` bound in its else-branch): the filesystem's current counter. -/
def usedWorkspace (fs : FS) : Nat := fs.counter

/-- The lines strictly after the first line containing the section marker
(everything when no line contains it: nothing is after a marker then). -/
def dropToMarker : List String → List String
  | [] => []
  | line :: rest => if markerIn line then rest else dropToMarker rest

/-- Claim C2's post-marker processing, taken at its word: blank lines are
dropped, every other post-marker line is tab-cleaned or kept unchanged —
lines containing a further section marker are NOT special. -/
def claimPost (ls : List String) : List String :=
  (ls.filter (fun l => !(isBlankLine l))).map tabClean

/-- The normalization function claim C2 describes, word for word: drop
everything up to and including the first marker line, then `claimPost`. -/
def claimNormalize (s : String) : String :=
  String.intercalate "\n" (claimPost (dropToMarker (splitlines s)))

/-- The amended post-marker processing: lines containing a section marker are
also dropped (the loop's marker test fires on every line, not just the
first), blank lines are dropped, the rest is tab-cleaned. -/
def amendedPost (ls : List String) : List String :=
  (ls.filter (fun l => !(markerIn l) && !(isBlankLine l))).map tabClean

/-- The amended normalization: drop everything up to and including the first
marker line, then `amendedPost`. -/
def amendedNormalize (s : String) : String :=
  String.intercalate "\n" (amendedPost (dropToMarker (splitlines s)))

/-- With the flag already set, the cleaning loop is exactly the amended
post-marker processing. -/
theorem cleanLines_true_eq (ls : List String) :
    cleanLines true ls = amendedPost ls := by
  induction ls with
  | nil => rfl
  | cons l rest ih =>
    by_cases hm : markerIn l
    · simp [cleanLines, amendedPost, List.filter_cons, hm] at ih ⊢
      exact ih
    · by_cases hbl : isBlankLine l
      · simp [cleanLines, amendedPost, List.filter_cons, hm, hbl] at ih ⊢
        exact ih
      · simp [cleanLines, amendedPost, List.filter_cons, hm, hbl] at ih ⊢
        exact ih

/-- The cleaning loop started with the flag unset: skip to past the first
marker line, then amended post-marker processing. -/
theorem cleanLines_false_eq (ls : List String) :
    cleanLines false ls = amendedPost (dropToMarker ls) := by
  induction ls with
  | nil => rfl
  | cons l rest ih =>
    by_cases hm : markerIn l
    · simp [cleanLines, dropToMarker, hm]
      exact cleanLines_true_eq rest
    · simp [cleanLines, dropToMarker, hm]
      exact ih

/-- The CCC block's trace when the compile call raises. -/
theorem cccStep_trace_error (src outBin e : String) (binEx : Bool)
    (probe dis : Except String ProcResult) :
    (cccStep src outBin (.error e) binEx probe dis).2
      = [⟨cccCmd src outBin, some 5⟩] := rfl

/-- The CCC block's trace on non-zero compile exit. -/
theorem cccStep_trace_fail (src outBin : String) (p : ProcResult)
    (binEx : Bool) (probe dis : Except String ProcResult)
    (h : p.returncode ≠ 0) :
    (cccStep src outBin (.ok p) binEx probe dis).2
      = [⟨cccCmd src outBin, some 5⟩] := by
  simp [cccStep, h]

/-- The CCC block's trace on zero exit with the binary absent. -/
theorem cccStep_trace_nobin (src outBin : String) (p : ProcResult)
    (probe dis : Except String ProcResult) (h : p.returncode = 0) :
    (cccStep src outBin (.ok p) false probe dis).2
      = [⟨cccCmd src outBin, some 5⟩] := by
  simp [cccStep, h]

/-- The CCC block's trace on zero exit with the binary present: compile,
probe (no timeout), and the disassembler run with the chosen tool — whether
or not the disassembler call itself raises. -/
theorem cccStep_trace_dis (src outBin : String) (p : ProcResult)
    (probe dis : Except String ProcResult) (h : p.returncode = 0) :
    (cccStep src outBin (.ok p) true probe dis).2
      = [⟨cccCmd src outBin, some 5⟩, ⟨probeCmd, none⟩,
         ⟨disCmd (chosenObjdump probe) outBin, some 5⟩] := by
  rcases dis with e | d <;> simp [cccStep, h]

/-- The gcc entry of the results dict is always assigned. -/
theorem gccStep_isSome (optLevel src : String) (run : Except String ProcResult) :
    ∃ a, (gccStep optLevel src run).1 = some a := by
  rcases run with e | p
  · exact ⟨.fail e, rfl⟩
  · by_cases h : p.returncode = 0 <;> simp [gccStep, h]

/-- The ccc entry of the results dict is always assigned. -/
theorem cccStep_isSome (src outBin : String) (cccRun : Except String ProcResult)
    (binEx : Bool) (probe dis : Except String ProcResult) :
    ∃ b, (cccStep src outBin cccRun binEx probe dis).1 = some b := by
  rcases cccRun with e | p
  · exact ⟨.fail e, rfl⟩
  · by_cases h : p.returncode = 0
    · rcases binEx with _ | _
      · simp [cccStep, h]
      · rcases dis with e | d
        · simp [cccStep, h]
        · by_cases hd : d.returncode = 0 <;> simp [cccStep, h, hd]
    · simp [cccStep, h]

/-- Claim C1 (counterexample): on a request whose GCC invocation exits 1 with
empty stderr and stdout "out", the gcc result's failure message is the empty
string, not the stdout fallback "out" the claim prescribes. -/
theorem c1_counterexample :
    (compile_code ⟨some "int x;", none⟩
        ⟨.ok ⟨1, "out", ""⟩, .ok ⟨1, "", ""⟩, false, .error "e", .error "e"⟩
        ⟨[], 0⟩).1.gcc = some (.fail "") ∧
    (compile_code ⟨some "int x;", none⟩
        ⟨.ok ⟨1, "out", ""⟩, .ok ⟨1, "", ""⟩, false, .error "e", .error "e"⟩
        ⟨[], 0⟩).1.gcc ≠ some (.fail "out") := by
  constructor
  · decide
  · decide

/-- Claim C1 (amended): on non-zero exit, backend B's (CCC's) failure message
is stderr when non-empty, else stdout, else "Unknown CCC Error", and is never
empty; backend A's (GCC's) failure message is its stderr text verbatim, which
is empty whenever stderr is empty. -/
theorem c1_amended (optLevel src outBin : String) (p q : ProcResult)
    (binEx : Bool) (probe dis : Except String ProcResult)
    (hp : p.returncode ≠ 0) (hq : q.returncode ≠ 0) :
    (gccStep optLevel src (.ok p)).1 = some (.fail p.stderr) ∧
    (cccStep src outBin (.ok q) binEx probe dis).1
      = some (.fail (cccFailMsg q)) ∧
    cccFailMsg q ≠ "" ∧
    (q.stderr ≠ "" → cccFailMsg q = q.stderr) ∧
    (q.stderr = "" → q.stdout ≠ "" → cccFailMsg q = q.stdout) ∧
    (q.stderr = "" → q.stdout = "" → cccFailMsg q = "Unknown CCC Error") := by
  refine ⟨by simp [gccStep, hp], by simp [cccStep, hq], ?_, ?_, ?_, ?_⟩
  · by_cases h1 : q.stderr = ""
    · by_cases h2 : q.stdout = ""
      · simp [cccFailMsg, h1, h2]
      · simp [cccFailMsg, h1, h2]
    · simp [cccFailMsg, h1]
  · intro h1
    simp [cccFailMsg, h1]
  · intro h1 h2
    simp [cccFailMsg, h1, h2]
  · intro h1 h2
    simp [cccFailMsg, h1, h2]

/-- Claim C1 witness: the amended claim instantiated at GCC exiting 1 with
stderr empty and stdout "out", and CCC exiting 1 with stderr and stdout both
empty. -/
theorem c1_amended_witness :
    (gccStep "-O0" "s" (.ok ⟨1, "out", ""⟩)).1 = some (.fail "") ∧
    (cccStep "s" "o" (.ok ⟨1, "", ""⟩) false (.error "x") (.error "x")).1
      = some (.fail (cccFailMsg ⟨1, "", ""⟩)) ∧
    cccFailMsg ⟨1, "", ""⟩ ≠ "" ∧
    (("" : String) ≠ "" → cccFailMsg ⟨1, "", ""⟩ = "") ∧
    (("" : String) = "" → ("" : String) ≠ "" → cccFailMsg ⟨1, "", ""⟩ = "") ∧
    (("" : String) = "" → ("" : String) = "" →
      cccFailMsg ⟨1, "", ""⟩ = "Unknown CCC Error") :=
  c1_amended "-O0" "s" "o" ⟨1, "out", ""⟩ ⟨1, "", ""⟩ false (.error "x")
    (.error "x") (by decide) (by decide)

/-- Claim C2 (counterexample): on disassembler output whose first line is the
".text" marker, second line a ".data" marker, and third line "mov", the code
drops the second marker line, while the claim as stated (post-marker non-blank
lines without a tab are emitted unchanged) keeps it. -/
theorem c2_counterexample :
    normalizeDisassembly
        "Disassembly of section .text:\nDisassembly of section .data:\nmov"
      = "mov" ∧
    claimNormalize
        "Disassembly of section .text:\nDisassembly of section .data:\nmov"
      = "Disassembly of section .data:\nmov" ∧
    normalizeDisassembly
        "Disassembly of section .text:\nDisassembly of section .data:\nmov"
      ≠ claimNormalize
        "Disassembly of section .text:\nDisassembly of section .data:\nmov" := by
  refine ⟨by decide, by decide, by decide⟩

/-- Claim C2 (amended): the normalization drops every line preceding the first
marker line, drops EVERY line containing the section marker (not only the
first), drops blank lines, replaces each remaining line containing a tab by a
single tab followed by the text after its first tab, keeps remaining tab-free
lines unchanged, and joins the kept lines with newlines; in particular the
claim's concrete example normalizes to "\tmov eax, 0". -/
theorem c2_amended :
    (∀ s, normalizeDisassembly s = amendedNormalize s) ∧
    normalizeDisassembly
        "file format elf64\n\nDisassembly of section .text:\n\n  10:\tmov eax, 0"
      = "\tmov eax, 0" := by
  constructor
  · intro s
    unfold normalizeDisassembly amendedNormalize
    rw [cleanLines_false_eq]
  · decide

/-- Claim C4: blank (empty or whitespace-only) source code makes the route
return the "No code" failure on both sides at once, with no process invoked
and the filesystem untouched (no workspace created). -/
theorem c4_no_code (data : RequestData) (env : Env) (fs : FS)
    (h : isBlankLine (data.code.getD "") = true) :
    (compile_code data env fs).1.gcc = some (.fail "No code") ∧
    (compile_code data env fs).1.ccc = some (.fail "No code") ∧
    (compile_code data env fs).2.1 = [] ∧
    (compile_code data env fs).2.2 = fs := by
  simp [compile_code, h, noCodeResult]

/-- Claim C4 witness: a whitespace-only request body. -/
theorem c4_no_code_witness :
    (compile_code ⟨some "  ", none⟩
        ⟨.error "e", .error "e", false, .error "e", .error "e"⟩
        ⟨[], 0⟩).1.gcc = some (.fail "No code") ∧
    (compile_code ⟨some "  ", none⟩
        ⟨.error "e", .error "e", false, .error "e", .error "e"⟩
        ⟨[], 0⟩).1.ccc = some (.fail "No code") ∧
    (compile_code ⟨some "  ", none⟩
        ⟨.error "e", .error "e", false, .error "e", .error "e"⟩
        ⟨[], 0⟩).2.1 = [] ∧
    (compile_code ⟨some "  ", none⟩
        ⟨.error "e", .error "e", false, .error "e", .error "e"⟩
        ⟨[], 0⟩).2.2 = ⟨[], 0⟩ :=
  c4_no_code ⟨some "  ", none⟩
    ⟨.error "e", .error "e", false, .error "e", .error "e"⟩ ⟨[], 0⟩ (by decide)

/-- Claim C8: when the CCC compile exits 0 but the expected output binary does
not exist, the ccc result is the explicit failure "Binary missing" — a
non-empty message, not a silent empty success. -/
theorem c8_binary_missing (data : RequestData) (env : Env) (fs : FS)
    (p : ProcResult) (hb : isBlankLine (data.code.getD "") = false)
    (hc : env.cccRun = .ok p) (h0 : p.returncode = 0)
    (hx : env.binExists = false) :
    (compile_code data env fs).1.ccc = some (.fail "Binary missing") ∧
    ("Binary missing" : String) ≠ "" := by
  constructor
  · simp [compile_code, hb, compile_body, hc, hx, cccStep, h0]
  · decide

/-- Claim C8 witness: CCC exits 0, the binary is absent. -/
theorem c8_binary_missing_witness :
    (compile_code ⟨some "int x;", none⟩
        ⟨.ok ⟨0, "", ""⟩, .ok ⟨0, "", ""⟩, false, .error "e", .error "e"⟩
        ⟨[], 0⟩).1.ccc = some (.fail "Binary missing") ∧
    ("Binary missing" : String) ≠ "" :=
  c8_binary_missing ⟨some "int x;", none⟩
    ⟨.ok ⟨0, "", ""⟩, .ok ⟨0, "", ""⟩, false, .error "e", .error "e"⟩
    ⟨[], 0⟩ ⟨0, "", ""⟩ (by decide) rfl rfl rfl

/-- Claim C3: both entries of the results dict are always assigned; an
exception raised in one backend's block becomes that backend's failure
carrying the exception's message; and each backend's result is a function of
its own block's subprocess outcomes alone, so nothing in one block can
suppress or alter the other's result. -/
theorem c3_isolation (data : RequestData) (env : Env) (fs : FS) :
    ((∃ a, (compile_code data env fs).1.gcc = some a) ∧
     (∃ b, (compile_code data env fs).1.ccc = some b)) ∧
    (isBlankLine (data.code.getD "") = false →
      (∀ e, env.gccRun = .error e →
        (compile_code data env fs).1.gcc = some (.fail e)) ∧
      (∀ e, env.cccRun = .error e →
        (compile_code data env fs).1.ccc = some (.fail e))) ∧
    (∀ env' : Env, env'.gccRun = env.gccRun →
      (compile_code data env' fs).1.gcc = (compile_code data env fs).1.gcc) ∧
    (∀ env' : Env, env'.cccRun = env.cccRun → env'.binExists = env.binExists →
      env'.probeRun = env.probeRun → env'.disRun = env.disRun →
      (compile_code data env' fs).1.ccc = (compile_code data env fs).1.ccc) := by
  cases hb : isBlankLine (data.code.getD "") with
  | true =>
    refine ⟨⟨⟨.fail "No code", by simp [compile_code, hb, noCodeResult]⟩,
             ⟨.fail "No code", by simp [compile_code, hb, noCodeResult]⟩⟩,
            ?_, ?_, ?_⟩
    · intro h; exact absurd h (by simp [hb])
    · intro env' hg; simp [compile_code, hb]
    · intro env' hc hbin hprobe hdis; simp [compile_code, hb]
  | false =>
    refine ⟨⟨?_, ?_⟩, ?_, ?_, ?_⟩
    · have h := gccStep_isSome (data.opt.getD "-O0")
        (dirName fs.counter ++ "/test.c") env.gccRun
      simpa [compile_code, hb, compile_body] using h
    · have h := cccStep_isSome (dirName fs.counter ++ "/test.c")
        (dirName fs.counter ++ "/ccc_out") env.cccRun env.binExists
        env.probeRun env.disRun
      simpa [compile_code, hb, compile_body] using h
    · intro _
      constructor
      · intro e hg; simp [compile_code, hb, compile_body, gccStep, hg]
      · intro e hc; simp [compile_code, hb, compile_body, cccStep, hc]
    · intro env' hg; simp [compile_code, hb, compile_body, hg]
    · intro env' hc hbin hprobe hdis
      simp [compile_code, hb, compile_body, hc, hbin, hprobe, hdis]

/-- Claim C3 witness: the population conjunct at a concrete request whose GCC
call raises and whose CCC call exits non-zero. -/
theorem c3_isolation_witness :
    (∃ a, (compile_code ⟨some "int x;", none⟩
        ⟨.error "gcc blew up", .ok ⟨1, "", "bad"⟩, false, .error "e", .error "e"⟩
        ⟨[], 0⟩).1.gcc = some a) ∧
    (∃ b, (compile_code ⟨some "int x;", none⟩
        ⟨.error "gcc blew up", .ok ⟨1, "", "bad"⟩, false, .error "e", .error "e"⟩
        ⟨[], 0⟩).1.ccc = some b) :=
  (c3_isolation ⟨some "int x;", none⟩
    ⟨.error "gcc blew up", .ok ⟨1, "", "bad"⟩, false, .error "e", .error "e"⟩
    ⟨[], 0⟩).1

/-- Claim C5 (counterexample): a run reaching the disassembler performs four
invocations, and the availability probe among them carries no timeout at all,
against the claim that every invocation is bounded by an explicit timeout. -/
theorem c5_counterexample :
    (compile_code ⟨some "int x;", none⟩
        ⟨.ok ⟨0, "a", ""⟩, .ok ⟨0, "", ""⟩, true, .ok ⟨0, "v", ""⟩,
         .ok ⟨0, "d", ""⟩⟩ ⟨[], 0⟩).2.1
      = [⟨gccCmd "-O0" "/dev/shm/tmp0/test.c", some 5⟩,
         ⟨cccCmd "/dev/shm/tmp0/test.c" "/dev/shm/tmp0/ccc_out", some 5⟩,
         ⟨probeCmd, none⟩,
         ⟨disCmd "x86_64-linux-gnu-objdump" "/dev/shm/tmp0/ccc_out", some 5⟩] ∧
    (⟨probeCmd, none⟩ : Invocation) ∈
      (compile_code ⟨some "int x;", none⟩
        ⟨.ok ⟨0, "a", ""⟩, .ok ⟨0, "", ""⟩, true, .ok ⟨0, "v", ""⟩,
         .ok ⟨0, "d", ""⟩⟩ ⟨[], 0⟩).2.1 ∧
    (⟨probeCmd, none⟩ : Invocation).timeoutSec = none := by
  refine ⟨by decide, by decide, rfl⟩

/-- Claim C5 (amended): the GCC compile, the CCC compile and the disassembler
run each carry the explicit 5-second timeout, while the
disassembler-availability probe is the one invocation launched with no
timeout; a timed-out invocation surfaces as an exception of its block
(converted to that backend's failure, see the exception clauses of the C3
theorem). -/
theorem c5_amended (data : RequestData) (env : Env) (fs : FS)
    (inv : Invocation) (h : inv ∈ (compile_code data env fs).2.1) :
    inv.timeoutSec = some 5 ∨
    (inv.argv = probeCmd ∧ inv.timeoutSec = none) := by
  cases hb : isBlankLine (data.code.getD "") with
  | true => simp [compile_code, hb] at h
  | false =>
    simp [compile_code, hb, compile_body, gccStep] at h
    rcases h with h | h
    · left; simp [h]
    · rcases henv : env.cccRun with e | p
      · rw [henv, cccStep_trace_error] at h
        simp at h; left; simp [h]
      · by_cases h0 : p.returncode = 0
        · cases hbe : env.binExists with
          | false =>
            rw [henv, hbe, cccStep_trace_nobin _ _ _ _ _ h0] at h
            simp at h; left; simp [h]
          | true =>
            rw [henv, hbe, cccStep_trace_dis _ _ _ _ _ h0] at h
            simp at h
            rcases h with h | h | h
            · left; simp [h]
            · right; simp [h]
            · left; simp [h]
        · rw [henv, cccStep_trace_fail _ _ _ _ _ _ h0] at h
          simp at h; left; simp [h]

/-- Claim C5 witness: the amended claim at the GCC invocation of a concrete
run. -/
theorem c5_amended_witness :
    (⟨gccCmd "-O0" "/dev/shm/tmp0/test.c", some 5⟩ : Invocation).timeoutSec
        = some 5 ∨
    ((⟨gccCmd "-O0" "/dev/shm/tmp0/test.c", some 5⟩ : Invocation).argv
        = probeCmd ∧
     (⟨gccCmd "-O0" "/dev/shm/tmp0/test.c", some 5⟩ : Invocation).timeoutSec
        = none) :=
  c5_amended ⟨some "int x;", none⟩
    ⟨.ok ⟨0, "a", ""⟩, .ok ⟨0, "", ""⟩, true, .ok ⟨0, "v", ""⟩, .ok ⟨0, "d", ""⟩⟩
    ⟨[], 0⟩ ⟨gccCmd "-O0" "/dev/shm/tmp0/test.c", some 5⟩ (by decide)

/-- Claim C6: once the CCC compile exits 0 and the binary exists, the
disassembler actually invoked is the chosen tool, which is the generic
"objdump" exactly when the probe of "x86_64-linux-gnu-objdump" raises
(binary unavailable or the launch errors), and the target-specific tool
whenever the probe call returns. -/
theorem c6_objdump_choice (data : RequestData) (env : Env) (fs : FS)
    (p : ProcResult) (hb : isBlankLine (data.code.getD "") = false)
    (hc : env.cccRun = .ok p) (h0 : p.returncode = 0)
    (hx : env.binExists = true) :
    (⟨disCmd (chosenObjdump env.probeRun) (dirName fs.counter ++ "/ccc_out"),
        some 5⟩ : Invocation) ∈ (compile_code data env fs).2.1 ∧
    (∀ e, env.probeRun = .error e → chosenObjdump env.probeRun = "objdump") ∧
    (∀ q, env.probeRun = .ok q →
      chosenObjdump env.probeRun = "x86_64-linux-gnu-objdump") := by
  refine ⟨?_, ?_, ?_⟩
  · simp [compile_code, hb, compile_body, hc, hx,
      cccStep_trace_dis _ _ _ _ _ h0]
  · intro e he; rw [he]; rfl
  · intro q hq; rw [hq]; rfl

/-- Claim C6 witness: with the probe raising, the generic "objdump" is run. -/
theorem c6_objdump_choice_witness :
    (⟨disCmd "objdump" (dirName 0 ++ "/ccc_out"), some 5⟩ : Invocation) ∈
      (compile_code ⟨some "int x;", none⟩
        ⟨.ok ⟨0, "", ""⟩, .ok ⟨0, "", ""⟩, true, .error "not found",
         .ok ⟨0, "", ""⟩⟩ ⟨[], 0⟩).2.1 :=
  (c6_objdump_choice ⟨some "int x;", none⟩
    ⟨.ok ⟨0, "", ""⟩, .ok ⟨0, "", ""⟩, true, .error "not found",
     .ok ⟨0, "", ""⟩⟩ ⟨[], 0⟩ ⟨0, "", ""⟩ (by decide) rfl rfl rfl).1

/-- Claim C7: any invocation of the CCC binary in any run's trace has exactly
the argument vector `[CCC_BINARY, "-c", <source file>, "-o", <output binary>]`
— in particular it never contains the request's optimization level, which is
not among these five fixed positions for any request. -/
theorem c7_ccc_argv (data : RequestData) (env : Env) (fs : FS)
    (inv : Invocation) (h : inv ∈ (compile_code data env fs).2.1)
    (hh : inv.argv.head? = some CCC_BINARY) :
    inv.argv = [CCC_BINARY, "-c", dirName fs.counter ++ "/test.c", "-o",
                dirName fs.counter ++ "/ccc_out"] := by
  cases hb : isBlankLine (data.code.getD "") with
  | true => simp [compile_code, hb] at h
  | false =>
    simp [compile_code, hb, compile_body, gccStep] at h
    rcases h with h | h
    · rw [h] at hh
      simp [gccCmd] at hh
      exact absurd hh (by decide)
    · rcases henv : env.cccRun with e | p
      · rw [henv, cccStep_trace_error] at h
        simp at h; simp [h, cccCmd]
      · by_cases h0 : p.returncode = 0
        · cases hbe : env.binExists with
          | false =>
            rw [henv, hbe, cccStep_trace_nobin _ _ _ _ _ h0] at h
            simp at h; simp [h, cccCmd]
          | true =>
            rw [henv, hbe, cccStep_trace_dis _ _ _ _ _ h0] at h
            simp at h
            rcases h with h | h | h
            · simp [h, cccCmd]
            · rw [h] at hh
              simp [probeCmd] at hh
              exact absurd hh (by decide)
            · rw [h] at hh
              rcases hp : env.probeRun with e | q
              · rw [hp] at hh
                simp [disCmd, chosenObjdump] at hh
                exact absurd hh (by decide)
              · rw [hp] at hh
                simp [disCmd, chosenObjdump] at hh
                exact absurd hh (by decide)
        · rw [henv, cccStep_trace_fail _ _ _ _ _ _ h0] at h
          simp at h; simp [h, cccCmd]

/-- Claim C7 witness: the CCC invocation of a run requesting "-O3". -/
theorem c7_ccc_argv_witness :
    (⟨cccCmd (dirName 0 ++ "/test.c") (dirName 0 ++ "/ccc_out"), some 5⟩
        : Invocation).argv
      = [CCC_BINARY, "-c", dirName 0 ++ "/test.c", "-o",
         dirName 0 ++ "/ccc_out"] :=
  c7_ccc_argv ⟨some "int x;", some "-O3"⟩
    ⟨.ok ⟨0, "", ""⟩, .ok ⟨1, "", "err"⟩, false, .error "e", .error "e"⟩
    ⟨[], 0⟩ ⟨cccCmd (dirName 0 ++ "/test.c") (dirName 0 ++ "/ccc_out"), some 5⟩
    (by decide) (by decide)

/-- Claim C9 (spec-modelled workspace manager): a non-blank call acquires the
filesystem's next fresh directory, which collides with no live directory, and
the directory is gone from the filesystem when the call returns; two
sequential calls acquire distinct directories, and after both the filesystem
holds exactly the directories it started with. -/
theorem c9_workspace (data1 data2 : RequestData) (env1 env2 : Env) (fs : FS)
    (hwf : fs.wf)
    (h1 : isBlankLine (data1.code.getD "") = false)
    (h2 : isBlankLine (data2.code.getD "") = false) :
    usedWorkspace fs ∉ fs.dirs ∧
    (compile_code data1 env1 fs).2.2 = ⟨fs.dirs, fs.counter + 1⟩ ∧
    usedWorkspace ((compile_code data1 env1 fs).2.2) ∉ fs.dirs ∧
    usedWorkspace ((compile_code data1 env1 fs).2.2) ≠ usedWorkspace fs ∧
    (compile_code data2 env2 ((compile_code data1 env1 fs).2.2)).2.2
      = ⟨fs.dirs, fs.counter + 2⟩ := by
  have hfs1 : (compile_code data1 env1 fs).2.2 = ⟨fs.dirs, fs.counter + 1⟩ := by
    simp [compile_code, h1]
  refine ⟨?_, hfs1, ?_, ?_, ?_⟩
  · intro hmem; exact absurd (hwf _ hmem) (lt_irrefl _)
  · rw [hfs1]; intro hmem
    have hlt := hwf _ hmem
    simp only [usedWorkspace] at hlt
    omega
  · rw [hfs1]; simp [usedWorkspace]
  · rw [hfs1]; simp [compile_code, h2]

/-- Claim C9 witness: two sequential non-blank calls on an empty filesystem
leave it empty, with the counter advanced past both acquired directories. -/
theorem c9_workspace_witness :
    (compile_code ⟨some "int x;", none⟩
        ⟨.error "e", .error "e", false, .error "e", .error "e"⟩ ⟨[], 0⟩).2.2
      = ⟨[], 1⟩ ∧
    (compile_code ⟨some "int y;", none⟩
        ⟨.error "e", .error "e", false, .error "e", .error "e"⟩
        ((compile_code ⟨some "int x;", none⟩
          ⟨.error "e", .error "e", false, .error "e", .error "e"⟩
          ⟨[], 0⟩).2.2)).2.2
      = ⟨[], 2⟩ :=
  ⟨(c9_workspace ⟨some "int x;", none⟩ ⟨some "int y;", none⟩
      ⟨.error "e", .error "e", false, .error "e", .error "e"⟩
      ⟨.error "e", .error "e", false, .error "e", .error "e"⟩ ⟨[], 0⟩
      (by simp [FS.wf]) (by decide) (by decide)).2.1,
   (c9_workspace ⟨some "int x;", none⟩ ⟨some "int y;", none⟩
      ⟨.error "e", .error "e", false, .error "e", .error "e"⟩
      ⟨.error "e", .error "e", false, .error "e", .error "e"⟩ ⟨[], 0⟩
      (by simp [FS.wf]) (by decide) (by decide)).2.2.2.2⟩

/-- Claim C10: a request without an 'opt' field runs GCC with "-O0" in the
flag position, and whatever string the request supplies as 'opt' lands
verbatim — unvalidated — as GCC's first command-line argument, whether or not
it is one of the five documented levels. -/
theorem c10_opt_forwarding (codeStr : String) (o : Option String) (env : Env)
    (fs : FS) (hb : isBlankLine codeStr = false) :
    (⟨gccCmd (o.getD "-O0") (dirName fs.counter ++ "/test.c"), some 5⟩
        : Invocation) ∈ (compile_code ⟨some codeStr, o⟩ env fs).2.1 ∧
    (o = none →
      gccCmd (o.getD "-O0") (dirName fs.counter ++ "/test.c")
        = [GCC_BINARY, "-O0", "-S", "-fverbose-asm", "-o", "-",
           dirName fs.counter ++ "/test.c"]) ∧
    (∀ s, o = some s →
      gccCmd (o.getD "-O0") (dirName fs.counter ++ "/test.c")
        = [GCC_BINARY, s, "-S", "-fverbose-asm", "-o", "-",
           dirName fs.counter ++ "/test.c"]) := by
  refine ⟨?_, ?_, ?_⟩
  · simp [compile_code, hb, compile_body, gccStep]
  · intro h; rw [h]; rfl
  · intro s h; rw [h]; rfl

/-- Claim C10 witness: the undocumented string "-Ofast-and-loose" is forwarded
verbatim as GCC's first argument. -/
theorem c10_opt_forwarding_witness :
    (⟨gccCmd "-Ofast-and-loose" (dirName 0 ++ "/test.c"), some 5⟩
        : Invocation) ∈
      (compile_code ⟨some "int x;", some "-Ofast-and-loose"⟩
        ⟨.error "e", .error "e", false, .error "e", .error "e"⟩
        ⟨[], 0⟩).2.1 :=
  (c10_opt_forwarding "int x;" (some "-Ofast-and-loose")
    ⟨.error "e", .error "e", false, .error "e", .error "e"⟩ ⟨[], 0⟩
    (by decide)).1
